import Mathlib

/-!
Shallow embedding of the temporal-ecommerce order saga.

Source files embedded:
- `src/business_functions.py` : the five side-effecting business operations
  over the relational store (orders / payments / events tables).
- `src/workflows.py` : `OrderWorkflow` (run body, `cancel_order` and
  `update_address` signal handlers, `get_status` query) and
  `ShippingWorkflow` (run body with its error wrapping).
- `src/database/models.py` : the `Order`, `Payment` and `Event` rows.

Modelling conventions:
- The database is a record of association lists plus a logical clock; each
  transaction commit bumps the clock, and an `Event` row's timestamp is the
  clock value at its commit (`server_default=func.now()` under a monotone
  server clock).
- `flaky_call` either raises or stalls before any database work; the
  activity layer retries such attempts with a fixed-interval policy until
  one attempt reaches the database code.  The business functions are
  therefore embedded by their deterministic committed-effect path.  The
  configured retry policy itself is embedded as `retry_policy` with the
  executor's retry decision `shouldRetry`; as configured it retries a
  domain `ValueError` exactly like an infrastructure fault, which is
  material to the validation-failure claim.
- Signals are delivered at the workflow's suspension points (the five
  awaits); `run` takes a schedule `sched : List (List Sig)` whose `i`-th
  batch is applied, in order, when suspension point `i` resumes, right
  before the corresponding post-step cancellation checkpoint.
- The step executor's terminal-failure path for the two shipping steps is
  exposed as `fault1 fault2 : Option String` (a surfaced infrastructure
  error message after retry exhaustion); a failed step commits nothing.
-/

/-- One item of an order's item list (a sku and a qty). -/
structure Item where
  sku : String
  qty : Nat
deriving DecidableEq, Repr

/-- The order payload returned by `order_received` and threaded through the
workflow as `self._order_data`. -/
structure OrderData where
  order_id : String
  items : List Item
deriving DecidableEq, Repr

/-- A JSON-ish address dictionary, as a list of key/value pairs. -/
abbrev Addr := List (String × String)

/-- A row of the `orders` table (`src/database/models.py`). -/
structure OrderRow where
  state : String
  address : Addr
deriving DecidableEq, Repr

/-- A row of the `payments` table, keyed externally by `payment_id`. -/
structure PaymentRow where
  order_id : String
  status : String
  amount : Nat
deriving DecidableEq, Repr

/-- A row of the append-only `events` table; `ts` is the commit timestamp. -/
structure EventRow where
  order_id : String
  type : String
  ts : Nat
deriving DecidableEq, Repr

/-- The relational store: three tables plus a logical commit clock. -/
structure DB where
  orders : List (String × OrderRow)
  payments : List (String × PaymentRow)
  events : List EventRow
  clock : Nat
deriving DecidableEq, Repr

def emptyDB : DB := ⟨[], [], [], 0⟩

def DB.getOrder (db : DB) (oid : String) : Option OrderRow :=
  (db.orders.find? (fun p => p.1 == oid)).map (·.2)

def DB.getPayment (db : DB) (pid : String) : Option PaymentRow :=
  (db.payments.find? (fun p => p.1 == pid)).map (·.2)

/-- In-transaction update of an order row's `state` column. -/
def DB.setOrderState (db : DB) (oid st : String) : DB :=
  { db with orders := db.orders.map fun p =>
      if p.1 == oid then (p.1, { p.2 with state := st }) else p }

/-- Append an `Event` row and commit: the row's `ts` is the current clock,
and the commit bumps the clock. -/
def DB.commitEvent (db : DB) (oid ty : String) : DB :=
  { db with events := db.events ++ [⟨oid, ty, db.clock⟩], clock := db.clock + 1 }

/-- Embeds `business_functions.order_received`: insert the order if absent (own
commit), then append an `order_received` event (second commit); if the
order already exists, return the fixed payload without touching the DB. -/
def order_received (db : DB) (order_id : String) : DB × OrderData :=
  match db.getOrder order_id with
  | some _ => (db, ⟨order_id, [⟨"ABC", 1⟩]⟩)
  | none =>
    let db1 : DB :=
      { db with
        orders := db.orders ++
          [(order_id, ⟨"received",
            [("street", "Default Address"), ("city", "Default City")]⟩)],
        clock := db.clock + 1 }
    (db1.commitEvent order_id "order_received", ⟨order_id, [⟨"ABC", 1⟩]⟩)

/-- Embeds `business_functions.order_validated`: raise on an empty item list,
raise if the order row is missing, return `True` unchanged if already
validated, else set the state and log an `order_validated` event in one
transaction. -/
def order_validated (db : DB) (order : OrderData) : Except String (DB × Bool) :=
  if order.items.isEmpty then .error "No items to validate"
  else
    match db.getOrder order.order_id with
    | none => .error "Order not found"
    | some row =>
      if row.state == "validated" then .ok (db, true)
      else .ok ((db.setOrderState order.order_id "validated").commitEvent
                  order.order_id "order_validated", true)

/-- The status-and-amount dictionary returned by `payment_charged`. -/
structure ChargeResult where
  status : String
  amount : Nat
deriving DecidableEq, Repr

/-- Embeds `business_functions.payment_charged`: `payment_id` is the idempotency
key.  If a `Payment` row exists, return its stored `{status, amount}`;
otherwise insert-or-fetch (`ON CONFLICT DO NOTHING RETURNING`), mark the
order `paid`, and log a `payment_charged` event, all in one transaction. -/
def payment_charged (db : DB) (order : OrderData) (payment_id : String) :
    DB × ChargeResult :=
  let amount := (order.items.map (fun i => i.qty)).sum
  match db.getPayment payment_id with
  | some p => (db, ⟨p.status, p.amount⟩)
  | none =>
    let inserted := (db.getPayment payment_id).isNone
    if inserted then
      let db1 : DB :=
        { db with payments := db.payments ++
            [(payment_id, ⟨order.order_id, "charged", amount⟩)] }
      let db2 :=
        match db1.getOrder order.order_id with
        | some _ => db1.setOrderState order.order_id "paid"
        | none => db1
      (db2.commitEvent order.order_id "payment_charged", ⟨"charged", amount⟩)
    else
      match db.getPayment payment_id with
      | some p => (db, ⟨p.status, p.amount⟩)
      | none => (db, ⟨"", 0⟩)

/-- Embeds `business_functions.package_prepared`: keyed by the existence of a
`package_prepared` event for the order; insert-or-skip, return the fixed
status string. -/
def package_prepared (db : DB) (order : OrderData) : DB × String :=
  if db.events.any (fun e => e.order_id == order.order_id &&
      e.type == "package_prepared") then
    (db, "Package ready")
  else
    (db.commitEvent order.order_id "package_prepared", "Package ready")

/-- Embeds `business_functions.carrier_dispatched`: keyed by the existence of a
`carrier_dispatched` event for the order; insert-or-skip. -/
def carrier_dispatched (db : DB) (order : OrderData) : DB × String :=
  if db.events.any (fun e => e.order_id == order.order_id &&
      e.type == "carrier_dispatched") then
    (db, "Dispatched")
  else
    (db.commitEvent order.order_id "carrier_dispatched", "Dispatched")

/-- The mutable fields of an `OrderWorkflow` instance. -/
structure WFState where
  order_id : String
  payment_id : String
  order_data : OrderData
  shipping_address : Addr
  is_cancelled : Bool
  current_step : String
deriving DecidableEq, Repr

/-- Embeds `OrderWorkflow.__init__`. -/
def initWF : WFState := ⟨"", "", ⟨"", []⟩, [], false, "initialized"⟩

namespace OrderWorkflow

/-- Signal handler `OrderWorkflow.cancel_order`. -/
def cancel_order (s : WFState) : WFState :=
  { s with is_cancelled := true, current_step := "cancelled" }

/-- Signal handler `OrderWorkflow.update_address`. -/
def update_address (s : WFState) (address : Addr) : WFState :=
  { s with shipping_address := address, current_step := "address_updated" }

end OrderWorkflow

/-- The dictionary returned by the `get_status` query. -/
structure StatusSnapshot where
  order_id : String
  current_step : String
  is_cancelled : Bool
  shipping_address : Addr
  order_data : OrderData
deriving DecidableEq, Repr

/-- Query handler `OrderWorkflow.get_status`. -/
def get_status (s : WFState) : StatusSnapshot :=
  ⟨s.order_id, s.current_step, s.is_cancelled, s.shipping_address, s.order_data⟩

/-- An external signal addressed to the order saga. -/
inductive Sig where
  | cancel
  | updAddr (address : Addr)
deriving DecidableEq, Repr

def Sig.isCancel : Sig → Bool
  | .cancel => true
  | .updAddr _ => false

/-- Apply one delivered signal to the workflow state (dispatch to the
source signal handlers). -/
def applySig (s : WFState) : Sig → WFState
  | .cancel => OrderWorkflow.cancel_order s
  | .updAddr a => OrderWorkflow.update_address s a

/-- Apply a batch of signals delivered during one suspension point, in
arrival order. -/
def applySigs (s : WFState) (l : List Sig) : WFState := l.foldl applySig s

deriving instance DecidableEq for Except

/-- The success dictionary returned by `ShippingWorkflow.run`. -/
structure ShipResult where
  status : String
  package_status : String
  dispatch_status : String
deriving DecidableEq, Repr

/-- Outcome of a run of the shipping child workflow: final database,
database snapshots after each committed step, and the returned value or
the raised error. -/
structure ShipOut where
  db : DB
  dbTrace : List DB
  result : Except String ShipResult
deriving DecidableEq, Repr

namespace ShippingWorkflow

/-- Embeds `ShippingWorkflow.run`: prepare-package then dispatch-carrier, each
under the step executor (`fault1`/`fault2` is a surfaced terminal
infrastructure error for the respective step, committing nothing); any
error is wrapped as `RuntimeError("Shipping failed: " + str(e))`. -/
def run (db : DB) (order_data : OrderData) (fault1 fault2 : Option String) :
    ShipOut :=
  match fault1 with
  | some m => ⟨db, [], .error ("Shipping failed: " ++ m)⟩
  | none =>
    let (db1, package_status) := package_prepared db order_data
    match fault2 with
    | some m => ⟨db1, [db1], .error ("Shipping failed: " ++ m)⟩
    | none =>
      let (db2, dispatch_status) := carrier_dispatched db1 order_data
      ⟨db2, [db1, db2], .ok ⟨"shipped", package_status, dispatch_status⟩⟩

end ShippingWorkflow

/-- The value returned by `OrderWorkflow.run`: either the cancellation
dictionary `{status: "cancelled", step: ...}` or the completion dictionary
(with its `payment_result` and `shipping_result` fields). -/
inductive RunResult where
  | cancelled (step : String)
  | completed (order_id : String) (payment_result : ChargeResult)
      (shipping_result : ShipResult)
deriving DecidableEq, Repr

/-- Outcome of a run of the order saga: final database, database snapshots
at every checkpoint (initial state included), final workflow state, every
workflow state the run passed through (each assignment of `_current_step`
and each signal-batch application yields one entry, so it lists every
state a concurrent `get_status` query could observe), the shipping
address in force when the child workflow was invoked (`none` if shipping
was never reached), and the returned value or raised error. -/
structure RunOut where
  db : DB
  dbTrace : List DB
  wf : WFState
  wfTrace : List WFState
  dispatchAddr : Option Addr
  result : Except String RunResult
deriving DecidableEq, Repr

namespace OrderWorkflow

/-- Embeds `OrderWorkflow.run` from the validate step on (source lines 84-166),
as a function of the state left by the receive step.  `sched` batches 1-4
are the signals delivered during the validate await, the manual-review
timer, the charge await and the child-workflow await.  The direct
surfacing of `order_validated`'s domain error to the except-path below
abstracts the configured activity retry layer; the retry layer itself is
embedded separately as `retry_policy`/`shouldRetry`, and as configured it
in fact retries the `ValueError` without bound (the discrepancy settled
with claim C3). -/
def runFromValidate (db1 : DB) (s1 : WFState) (payment_id : String)
    (sched : List (List Sig)) (fault1 fault2 : Option String) : RunOut :=
  let s2 : WFState := { s1 with current_step := "validating_order" }
  match order_validated db1 s2.order_data with
  | .error e =>
    ⟨db1, [], { s2 with current_step := "failed" },
      [s2, { s2 with current_step := "failed" }], none, .error e⟩
  | .ok (db2, validation_result) =>
    if validation_result == false then
      ⟨db2, [db2], { s2 with current_step := "failed" },
        [s2, { s2 with current_step := "failed" }], none,
        .error "Order validation failed"⟩
    else
    let s2b := applySigs s2 (sched.getD 1 [])
    if s2b.is_cancelled then
      ⟨db2, [db2], s2b, [s2, s2b], none, .ok (.cancelled "order_validated")⟩
    else
    let s3 : WFState := { s2b with current_step := "manual_review" }
    let s3b := applySigs s3 (sched.getD 2 [])
    if s3b.is_cancelled then
      ⟨db2, [db2], s3b, [s2, s2b, s3, s3b], none,
        .ok (.cancelled "manual_review")⟩
    else
    let s4 : WFState := { s3b with current_step := "charging_payment" }
    let (db3, payment_result) := payment_charged db2 s4.order_data payment_id
    let s4b := applySigs s4 (sched.getD 3 [])
    if payment_result.status != "charged" then
      ⟨db3, [db2, db3], { s4b with current_step := "failed" },
        [s2, s2b, s3, s3b, s4, s4b, { s4b with current_step := "failed" }],
        none, .error "Payment failed"⟩
    else
    if s4b.is_cancelled then
      ⟨db3, [db2, db3], s4b, [s2, s2b, s3, s3b, s4, s4b], none,
        .ok (.cancelled "payment_charged")⟩
    else
    let s5 : WFState := { s4b with current_step := "starting_shipping" }
    if s5.is_cancelled then
      ⟨db3, [db2, db3], s5, [s2, s2b, s3, s3b, s4, s4b, s5], none,
        .ok (.cancelled "shipping_started")⟩
    else
    let dAddr := s5.shipping_address
    let ship := ShippingWorkflow.run db3 s5.order_data fault1 fault2
    let s5b := applySigs s5 (sched.getD 4 [])
    match ship.result with
    | .error e =>
      ⟨ship.db, [db2, db3] ++ ship.dbTrace,
        { s5b with current_step := "failed" },
        [s2, s2b, s3, s3b, s4, s4b, s5, s5b,
          { s5b with current_step := "failed" }],
        some dAddr, .error e⟩
    | .ok sr =>
      ⟨ship.db, [db2, db3] ++ ship.dbTrace,
        { s5b with current_step := "completed" },
        [s2, s2b, s3, s3b, s4, s4b, s5, s5b,
          { s5b with current_step := "completed" }],
        some dAddr, .ok (.completed s1.order_id payment_result sr)⟩

/-- Embeds `OrderWorkflow.run` (source lines 53-166).  `sched` batch 0 is the
signals delivered up to the end of the receive await; the database
snapshots of the initial state and every committed step are collected in
`dbTrace`, and every workflow state passed through in `wfTrace`. -/
def run (db0 : DB) (order_id payment_id : String) (sched : List (List Sig))
    (fault1 fault2 : Option String) : RunOut :=
  let s0 : WFState :=
    { initWF with order_id := order_id, payment_id := payment_id,
                  current_step := "started" }
  let (db1, od) := order_received db0 order_id
  let s1 : WFState :=
    { s0 with current_step := "receiving_order", order_data := od }
  let s1b := applySigs s1 (sched.getD 0 [])
  if s1b.is_cancelled then
    ⟨db1, [db0, db1], s1b, [initWF, s0, s1, s1b], none,
      .ok (.cancelled "order_received")⟩
  else
    let out := runFromValidate db1 s1b payment_id sched fault1 fault2
    { out with dbTrace := db0 :: db1 :: out.dbTrace,
               wfTrace := initWF :: s0 :: s1 :: s1b :: out.wfTrace }

end OrderWorkflow

/-- The retry policy configured for every activity of the order saga
(`workflows.py` lines 63-67): 1ms initial interval, 10ms maximum
interval, backoff coefficient 1 (no backoff), and the fields the source
leaves unset at their defaults — maximum attempt count 0 (unlimited) and
no non-retryable error types. -/
structure RetryPolicy where
  initial_interval_ms : Nat
  maximum_interval_ms : Nat
  backoff_coefficient : Nat
  maximum_attempts : Nat
  non_retryable_error_types : List String
deriving DecidableEq, Repr

def retry_policy : RetryPolicy := ⟨1, 10, 1, 0, []⟩

/-- Modelled from the spec: the step executor's retry decision (spec 4.3
— "on application error the same retry path is taken", with an
"unlimited or bounded attempt count (configurable)"); the executor
itself is the external workflow runtime, not part of the source tree.
An error of type `errType` raised by attempt number `attempt` is retried
iff the policy's attempt bound (0 meaning unlimited) is not reached and
the error's type is not listed as non-retryable. -/
def shouldRetry (p : RetryPolicy) (errType : String) (attempt : Nat) : Bool :=
  (p.maximum_attempts == 0 || attempt < p.maximum_attempts) &&
  !(p.non_retryable_error_types.contains errType)

/-! ### Statement vocabulary -/

/-- The spec's phase set extended with the two extra phase values the
code can expose: `started` (set when the run begins) and
`address_updated` (set by the `update_address` handler). -/
def specPhasesExt : List String :=
  ["initialized", "started", "receiving_order", "validating_order",
   "manual_review", "charging_payment", "starting_shipping", "completed",
   "cancelled", "failed", "address_updated"]

/-- Membership of a workflow state's phase in the extended phase set. -/
def phaseOKb (w : WFState) : Bool := specPhasesExt.contains w.current_step

/-- The five step event types in the fixed saga order. -/
def stepTypes : List String :=
  ["order_received", "order_validated", "payment_charged",
   "package_prepared", "carrier_dispatched"]

/-- Step-order invariant on an event table: an event of a later step's
type exists only if the events of all earlier steps exist. -/
def stepOrderOKb (evs : List EventRow) : Bool :=
  let p := fun t => evs.any (fun e => e.type == t)
  (!p "order_validated" || p "order_received") &&
  (!p "payment_charged" || p "order_validated") &&
  (!p "package_prepared" || p "payment_charged") &&
  (!p "carrier_dispatched" || p "package_prepared")

/-- The `step` string of the cancellation result returned at the
post-step checkpoint `k` (checkpoints 0-3 follow the receive, validate,
manual-review and charge steps). -/
def checkpointStep : Nat → String
  | 0 => "order_received"
  | 1 => "order_validated"
  | 2 => "manual_review"
  | _ => "payment_charged"

/-- Event types committed by the steps completed when checkpoint `k` is
reached (the manual-review timer commits nothing). -/
def completedEvents : Nat → List String
  | 0 => ["order_received"]
  | 1 => ["order_received", "order_validated"]
  | 2 => ["order_received", "order_validated"]
  | _ => ["order_received", "order_validated", "payment_charged"]

/-- Schedule delivering one address-update signal at suspension point `i`
and a second one at suspension point `j`, nothing else. -/
def mkSched (i j : Nat) (a1 a2 : Addr) : List (List Sig) :=
  (List.range 5).map fun t =>
    if t = i then [Sig.updAddr a1] else if t = j then [Sig.updAddr a2] else []

/-- Phases consistent with a run result: completion pins the phase to
`completed`, failure to `failed`, and cancellation to `cancelled` unless
an address-update later in the same signal batch overwrote it. -/
def expectedPhases : Except String RunResult → List String
  | .error _ => ["failed"]
  | .ok (.cancelled _) => ["cancelled", "address_updated"]
  | .ok (.completed _ _ _) => ["completed"]

/-! ### Helper lemmas about signal application -/

theorem applySigs_is_cancelled (l : List Sig) (s : WFState) :
    (applySigs s l).is_cancelled = (s.is_cancelled || l.any Sig.isCancel) := by
  induction l generalizing s with
  | nil => simp [applySigs]
  | cons a t ih =>
    cases a with
    | cancel =>
      rw [show applySigs s (Sig.cancel :: t) =
            applySigs (applySig s Sig.cancel) t from rfl, ih]
      simp [applySig, OrderWorkflow.cancel_order, Sig.isCancel]
    | updAddr addr =>
      rw [show applySigs s (Sig.updAddr addr :: t) =
            applySigs (applySig s (Sig.updAddr addr)) t from rfl, ih]
      simp [applySig, OrderWorkflow.update_address, Sig.isCancel]

theorem applySigs_order_data (l : List Sig) (s : WFState) :
    (applySigs s l).order_data = s.order_data := by
  induction l generalizing s with
  | nil => rfl
  | cons a t ih =>
    cases a <;>
      simpa [applySigs, applySig, OrderWorkflow.cancel_order,
        OrderWorkflow.update_address, List.foldl] using ih _

theorem applySigs_order_id (l : List Sig) (s : WFState) :
    (applySigs s l).order_id = s.order_id := by
  induction l generalizing s with
  | nil => rfl
  | cons a t ih =>
    cases a <;>
      simpa [applySigs, applySig, OrderWorkflow.cancel_order,
        OrderWorkflow.update_address, List.foldl] using ih _

/-- The phase string written by one signal handler. -/
def sigStep : Sig → String
  | .cancel => "cancelled"
  | .updAddr _ => "address_updated"

/-- A nonempty signal batch leaves the phase at the value written by its
last handler. -/
theorem applySigs_current_step_cons (a : Sig) (t : List Sig) (s : WFState) :
    (applySigs s (a :: t)).current_step =
      t.foldl (fun _ g => sigStep g) (sigStep a) := by
  induction t generalizing a s with
  | nil =>
    cases a <;>
      simp [applySigs, applySig, sigStep, OrderWorkflow.cancel_order,
        OrderWorkflow.update_address, List.foldl]
  | cons b u ih =>
    simpa [applySigs, List.foldl] using ih b (applySig s a)

/-- The phase left by a batch of handlers is `cancelled` or
`address_updated`. -/
theorem sigFold_cases (t : List Sig) (a : Sig) :
    t.foldl (fun _ g => sigStep g) (sigStep a) = "cancelled" ∨
    t.foldl (fun _ g => sigStep g) (sigStep a) = "address_updated" := by
  induction t generalizing a with
  | nil => cases a <;> simp [sigStep]
  | cons b u ih => simpa [List.foldl] using ih b

/-- The already-charged branch of `payment_charged`: an existing payment
row is returned unchanged and the database is untouched. -/
theorem payment_charged_existing (db : DB) (o : OrderData) (pid : String)
    (p : PaymentRow) (h : db.getPayment pid = some p) :
    payment_charged db o pid = (db, ⟨p.status, p.amount⟩) := by
  simp [payment_charged, h]

theorem find?_append_of_none {α : Type} (l1 l2 : List α) (p : α → Bool)
    (h : l1.find? p = none) : (l1 ++ l2).find? p = l2.find? p := by
  induction l1 with
  | nil => rfl
  | cons a t ih =>
    simp only [List.find?_cons, List.cons_append] at h ⊢
    cases hp : p a with
    | true => simp [hp] at h
    | false =>
      simp only [hp] at h ⊢
      exact ih h

/-! ### Claim theorems -/

/-- C9: every uncancelled, fault-free run — any order id, payment id and
signal schedule without a cancel signal — returns status `completed` with
a `shipped` shipping result, and the database holds exactly one event of
each of the five step types for the order plus exactly one payment row
for the payment id. -/
theorem C9_end_to_end (oid pid : String) (sched : List (List Sig))
    (hnc : ∀ j, j ≤ 4 → (sched.getD j []).any Sig.isCancel = false) :
    (OrderWorkflow.run emptyDB oid pid sched none none).result =
      .ok (.completed oid ⟨"charged", 1⟩
        ⟨"shipped", "Package ready", "Dispatched"⟩) ∧
    (stepTypes.all fun t =>
      ((OrderWorkflow.run emptyDB oid pid sched none none).db.events.filter
        (fun e => e.order_id == oid && e.type == t)).length == 1) = true ∧
    ((OrderWorkflow.run emptyDB oid pid sched none none).db.payments.filter
        (fun p => p.1 == pid)).length = 1 := by
  have hb0 := hnc 0 (by norm_num)
  have hb1 := hnc 1 (by norm_num)
  have hb2 := hnc 2 (by norm_num)
  have hb3 := hnc 3 (by norm_num)
  refine ⟨?_, ?_, ?_⟩ <;>
    simp [-List.any_eq_true, -List.getD_eq_getElem?_getD, OrderWorkflow.run,
      OrderWorkflow.runFromValidate, ShippingWorkflow.run, order_received,
      order_validated, payment_charged, package_prepared, carrier_dispatched,
      DB.getOrder, DB.getPayment, DB.setOrderState, DB.commitEvent, emptyDB,
      applySigs_is_cancelled, applySigs_order_data, applySigs_order_id,
      hb0, hb1, hb2, hb3, initWF, stepTypes]

/-- C9 witness: an uncancelled run whose schedule carries an
address-update signal. -/
theorem C9_end_to_end_witness :
    (OrderWorkflow.run emptyDB "order-1" "payment-1"
        [[Sig.updAddr [("street", "A")]]] none none).result =
      .ok (.completed "order-1" ⟨"charged", 1⟩
        ⟨"shipped", "Package ready", "Dispatched"⟩) ∧
    (stepTypes.all fun t =>
      ((OrderWorkflow.run emptyDB "order-1" "payment-1"
          [[Sig.updAddr [("street", "A")]]] none none).db.events.filter
        (fun e => e.order_id == "order-1" && e.type == t)).length == 1) = true ∧
    ((OrderWorkflow.run emptyDB "order-1" "payment-1"
        [[Sig.updAddr [("street", "A")]]] none none).db.payments.filter
        (fun p => p.1 == "payment-1")).length = 1 :=
  C9_end_to_end "order-1" "payment-1" [[Sig.updAddr [("street", "A")]]]
    (fun j hj => by interval_cases j <;> decide)

/-- C10: the address-update signal mutates more than the shipping
address: the queried phase becomes `address_updated` whatever the saga's
current step was, the stored address becomes the signalled one, and the
remaining snapshot fields are unchanged. -/
theorem C10_update_address_overwrites_phase (s : WFState) (a : Addr) :
    get_status (OrderWorkflow.update_address s a) =
      ⟨s.order_id, "address_updated", s.is_cancelled, a, s.order_data⟩ := rfl

/-- C7 counterexample: the final state of a successful run has the
terminal phase `completed`, yet applying the cancel signal handler to it
changes the queried snapshot (the phase becomes `cancelled`), so cancel
is not a no-op on every terminal state. -/
theorem C7_cancel_mutates_completed_state :
    (OrderWorkflow.run emptyDB "o" "p" [] none none).wf.current_step = "completed" ∧
    get_status (OrderWorkflow.cancel_order
        (OrderWorkflow.run emptyDB "o" "p" [] none none).wf) ≠
      get_status (OrderWorkflow.run emptyDB "o" "p" [] none none).wf := by
  refine ⟨rfl, by decide⟩

/-- C7 amended: the cancel handler is idempotent — a second application
changes nothing observable — and hence a no-op on a state already
cancelled; but it carries no terminal-phase guard, so on a `completed` or
`failed` state it still rewrites the phase to `cancelled`. -/
theorem C7_cancel_idempotent (s : WFState) :
    OrderWorkflow.cancel_order (OrderWorkflow.cancel_order s) =
      OrderWorkflow.cancel_order s ∧
    get_status (OrderWorkflow.cancel_order (OrderWorkflow.cancel_order s)) =
      get_status (OrderWorkflow.cancel_order s) := ⟨rfl, rfl⟩

/-- C1: charging twice with the same payment id creates exactly one
payment row for that id (given none existed) and the second invocation
returns the same `{status, amount}` as the first, whatever order payload
the second attempt carries. -/
theorem C1_idempotent_charge (db : DB) (o o2 : OrderData) (pid : String)
    (h : db.getPayment pid = none) :
    (payment_charged (payment_charged db o pid).1 o2 pid).2 =
      (payment_charged db o pid).2 ∧
    ((payment_charged (payment_charged db o pid).1 o2 pid).1).payments.countP
      (fun p => p.1 == pid) = 1 := by
  have hf : db.payments.find? (fun p => p.1 == pid) = none := by
    unfold DB.getPayment at h
    exact Option.map_eq_none'.mp h
  have hz : db.payments.countP (fun p => p.1 == pid) = 0 := by
    rw [List.countP_eq_zero]
    intro a ha hpa
    have := List.find?_eq_none.mp hf a ha
    exact this hpa
  have h1 : (payment_charged db o pid).1.payments =
      db.payments ++ [(pid, ⟨o.order_id, "charged", (o.items.map (fun i => i.qty)).sum⟩)] := by
    simp [payment_charged, DB.getPayment, hf, DB.commitEvent, DB.setOrderState]
    cases hg : ({ db with payments := db.payments ++
        [(pid, ⟨o.order_id, "charged", (o.items.map (fun i => i.qty)).sum⟩)] } : DB).getOrder o.order_id <;>
      simp [hg, DB.setOrderState]
  have h2 : (payment_charged db o pid).2 =
      ⟨"charged", (o.items.map (fun i => i.qty)).sum⟩ := by
    simp [payment_charged, DB.getPayment, hf]
  have hfind : (payment_charged db o pid).1.payments.find? (fun p => p.1 == pid) =
      some (pid, ⟨o.order_id, "charged", (o.items.map (fun i => i.qty)).sum⟩) := by
    rw [h1, find?_append_of_none _ _ _ hf]
    simp [List.find?]
  have hg : (payment_charged db o pid).1.getPayment pid =
      some ⟨o.order_id, "charged", (o.items.map (fun i => i.qty)).sum⟩ := by
    unfold DB.getPayment
    rw [hfind]
    rfl
  rw [payment_charged_existing _ o2 pid _ hg]
  constructor
  · rw [h2]
  · rw [h1, List.countP_append, hz]
    simp

/-- C1 witness. -/
theorem C1_idempotent_charge_witness :
    (payment_charged (payment_charged emptyDB ⟨"order-1", [⟨"ABC", 1⟩]⟩ "payment-1").1
        ⟨"order-1", [⟨"ABC", 1⟩]⟩ "payment-1").2 =
      (payment_charged emptyDB ⟨"order-1", [⟨"ABC", 1⟩]⟩ "payment-1").2 ∧
    ((payment_charged (payment_charged emptyDB ⟨"order-1", [⟨"ABC", 1⟩]⟩ "payment-1").1
        ⟨"order-1", [⟨"ABC", 1⟩]⟩ "payment-1").1).payments.countP
      (fun p => p.1 == "payment-1") = 1 :=
  C1_idempotent_charge emptyDB ⟨"order-1", [⟨"ABC", 1⟩]⟩ ⟨"order-1", [⟨"ABC", 1⟩]⟩
    "payment-1" (by decide)

/-- C3 (code bug): an order snapshot with an empty item list makes the
validate operation raise the domain error `No items to validate`
(committing nothing), but under the retry policy configured for the
activity — no non-retryable error types, unlimited attempts — the
executor retries the error at every attempt number, so the error never
surfaces to the workflow: the saga never sets phase `failed`, contrary
to the claim's "not retried and terminal". -/
theorem C3_validation_error_is_retried (db : DB) (o : OrderData) (n : Nat)
    (h : o.items = []) :
    order_validated db o = .error "No items to validate" ∧
    shouldRetry retry_policy "ValueError" n = true := by
  constructor
  · simp [order_validated, h]
  · simp [shouldRetry, retry_policy]

/-- C3 witness. -/
theorem C3_validation_error_is_retried_witness :
    order_validated emptyDB ⟨"order-1", []⟩ = .error "No items to validate" ∧
    shouldRetry retry_policy "ValueError" 0 = true :=
  C3_validation_error_is_retried emptyDB ⟨"order-1", []⟩ 0 rfl

/-- C5: a terminal failure of either shipping step is wrapped with the
shipping-specific message `Shipping failed: ...` containing the original
cause as a substring, and the parent saga does not absorb it: the
parent's phase becomes `failed` and the same wrapped error is re-raised
as the parent's outcome. -/
theorem C5_shipping_failure_propagates (db : DB) (od : OrderData)
    (oid pid m : String) (b : Bool) :
    (ShippingWorkflow.run db od (if b then some m else none)
        (if b then none else some m)).result =
      .error ("Shipping failed: " ++ m) ∧
    (∃ pre suf, "Shipping failed: " ++ m = pre ++ m ++ suf) ∧
    (OrderWorkflow.run emptyDB oid pid [] (if b then some m else none)
        (if b then none else some m)).result =
      .error ("Shipping failed: " ++ m) ∧
    (OrderWorkflow.run emptyDB oid pid [] (if b then some m else none)
        (if b then none else some m)).wf.current_step = "failed" := by
  cases b <;>
    refine ⟨?_, ⟨"Shipping failed: ", "", by simp⟩, ?_, ?_⟩ <;>
    simp [ShippingWorkflow.run, OrderWorkflow.run, OrderWorkflow.runFromValidate,
      order_received, order_validated, payment_charged, package_prepared,
      carrier_dispatched, DB.getOrder, DB.getPayment, DB.setOrderState,
      DB.commitEvent, emptyDB, applySigs, initWF]

/-- C6: with two address-update signals delivered at any two suspension
points before the shipping phase, the saga's stored shipping address when
the child workflow is invoked is exactly the second signal's address
(last-writer-wins, no merge), and it is still the stored address when the
run completes. -/
theorem C6_address_last_writer_wins (a1 a2 : Addr) (i j : Nat)
    (hij : i < j) (hj : j ≤ 3) :
    (OrderWorkflow.run emptyDB "order-1" "payment-1" (mkSched i j a1 a2)
        none none).dispatchAddr = some a2 ∧
    (OrderWorkflow.run emptyDB "order-1" "payment-1" (mkSched i j a1 a2)
        none none).wf.shipping_address = a2 := by
  interval_cases j <;> interval_cases i <;>
    simp [OrderWorkflow.run, OrderWorkflow.runFromValidate, mkSched,
      ShippingWorkflow.run, order_received, order_validated, payment_charged,
      package_prepared, carrier_dispatched, DB.getOrder, DB.getPayment,
      DB.setOrderState, DB.commitEvent, emptyDB, applySigs, applySig,
      OrderWorkflow.update_address, initWF, List.range, List.range.loop]

/-- C6 witness. -/
theorem C6_address_last_writer_wins_witness :
    (OrderWorkflow.run emptyDB "order-1" "payment-1"
        (mkSched 0 1 [("street", "A")] [("street", "B")]) none none).dispatchAddr =
      some [("street", "B")] ∧
    (OrderWorkflow.run emptyDB "order-1" "payment-1"
        (mkSched 0 1 [("street", "A")] [("street", "B")]) none none).wf.shipping_address =
      [("street", "B")] :=
  C6_address_last_writer_wins [("street", "A")] [("street", "B")] 0 1
    (by decide) (by decide)

/-- C2: if the cancellation flag is first observed set at the post-step
checkpoint `k` (the cancel signal arrived during step `k`'s suspension, so
the in-flight step was allowed to finish), the saga returns
`{status: "cancelled", step: checkpointStep k}` naming the last completed
step, and the database holds exactly the events of steps up to `k` — no
further step was started. -/
theorem C2_cancel_halts_at_checkpoint (oid pid : String)
    (sched : List (List Sig)) (f1 f2 : Option String) (k : Nat) (hk : k ≤ 3)
    (hc : ((sched.getD k []).any Sig.isCancel) = true)
    (hp : ∀ j, j < k → ((sched.getD j []).any Sig.isCancel) = false) :
    (OrderWorkflow.run emptyDB oid pid sched f1 f2).result =
      .ok (.cancelled (checkpointStep k)) ∧
    (OrderWorkflow.run emptyDB oid pid sched f1 f2).db.events.map
      (fun e => e.type) = completedEvents k := by
  interval_cases k
  · refine ⟨?_, ?_⟩ <;>
      simp [-List.any_eq_true, -List.getD_eq_getElem?_getD, initWF, OrderWorkflow.run, order_received, DB.getOrder, DB.commitEvent,
        emptyDB, applySigs_is_cancelled, hc, checkpointStep, completedEvents]
  · have hp0 := hp 0 (by norm_num)
    refine ⟨?_, ?_⟩ <;>
      simp [-List.any_eq_true, -List.getD_eq_getElem?_getD, initWF, OrderWorkflow.run, OrderWorkflow.runFromValidate, order_received,
        order_validated, DB.getOrder, DB.setOrderState, DB.commitEvent, emptyDB,
        applySigs_is_cancelled, applySigs_order_data, hp0, hc,
        checkpointStep, completedEvents]
  · have hp0 := hp 0 (by norm_num)
    have hp1 := hp 1 (by norm_num)
    refine ⟨?_, ?_⟩ <;>
      simp [-List.any_eq_true, -List.getD_eq_getElem?_getD, initWF, OrderWorkflow.run, OrderWorkflow.runFromValidate, order_received,
        order_validated, DB.getOrder, DB.setOrderState, DB.commitEvent, emptyDB,
        applySigs_is_cancelled, applySigs_order_data, hp0, hp1, hc,
        checkpointStep, completedEvents]
  · have hp0 := hp 0 (by norm_num)
    have hp1 := hp 1 (by norm_num)
    have hp2 := hp 2 (by norm_num)
    refine ⟨?_, ?_⟩ <;>
      simp [-List.any_eq_true, -List.getD_eq_getElem?_getD, initWF, OrderWorkflow.run, OrderWorkflow.runFromValidate, order_received,
        order_validated, payment_charged, DB.getOrder, DB.getPayment,
        DB.setOrderState, DB.commitEvent, emptyDB, applySigs_is_cancelled,
        applySigs_order_data, hp0, hp1, hp2, hc, checkpointStep, completedEvents]

/-- C2 witness: cancel delivered during the validate step. -/
theorem C2_cancel_halts_at_checkpoint_witness :
    (OrderWorkflow.run emptyDB "order-1" "payment-1" [[], [Sig.cancel]]
        none none).result = .ok (.cancelled (checkpointStep 1)) ∧
    (OrderWorkflow.run emptyDB "order-1" "payment-1" [[], [Sig.cancel]]
        none none).db.events.map (fun e => e.type) = completedEvents 1 :=
  C2_cancel_halts_at_checkpoint "order-1" "payment-1" [[], [Sig.cancel]]
    none none 1 (by norm_num) (by decide)
    (fun j hj => by interval_cases j; decide)

/-- C4: along every run of the saga (any signal schedule, any shipping
faults), every database snapshot reached satisfies the step-order
invariant — an event of a later step's type exists only when the events
of all earlier steps exist — and the final event log is a prefix of the
fixed step sequence with strictly increasing timestamps. -/
theorem C4_step_order_invariant (sched : List (List Sig)) (f1 f2 : Option String) :
    ((OrderWorkflow.run emptyDB "order-1" "payment-1" sched f1 f2).dbTrace.all
      (fun d => stepOrderOKb d.events)) = true ∧
    (OrderWorkflow.run emptyDB "order-1" "payment-1" sched f1 f2).db.events.map
      (fun e => e.type) <+: stepTypes ∧
    List.Chain' (fun a b => a.ts < b.ts)
      (OrderWorkflow.run emptyDB "order-1" "payment-1" sched f1 f2).db.events := by
  cases hb0 : (sched.getD 0 []).any Sig.isCancel with
  | true =>
    refine ⟨?_, ?_, ?_⟩ <;>
      simp [-List.any_eq_true, -List.getD_eq_getElem?_getD, OrderWorkflow.run,
        OrderWorkflow.runFromValidate, order_received, DB.getOrder,
        DB.commitEvent, emptyDB, applySigs_is_cancelled, hb0, initWF] <;>
      decide
  | false =>
  cases hb1 : (sched.getD 1 []).any Sig.isCancel with
  | true =>
    refine ⟨?_, ?_, ?_⟩ <;>
      simp [-List.any_eq_true, -List.getD_eq_getElem?_getD, OrderWorkflow.run,
        OrderWorkflow.runFromValidate, order_received, order_validated,
        DB.getOrder, DB.setOrderState, DB.commitEvent, emptyDB,
        applySigs_is_cancelled, applySigs_order_data, hb0, hb1, initWF] <;>
      decide
  | false =>
  cases hb2 : (sched.getD 2 []).any Sig.isCancel with
  | true =>
    refine ⟨?_, ?_, ?_⟩ <;>
      simp [-List.any_eq_true, -List.getD_eq_getElem?_getD, OrderWorkflow.run,
        OrderWorkflow.runFromValidate, order_received, order_validated,
        DB.getOrder, DB.setOrderState, DB.commitEvent, emptyDB,
        applySigs_is_cancelled, applySigs_order_data, hb0, hb1, hb2, initWF] <;>
      decide
  | false =>
  cases hb3 : (sched.getD 3 []).any Sig.isCancel with
  | true =>
    refine ⟨?_, ?_, ?_⟩ <;>
      simp [-List.any_eq_true, -List.getD_eq_getElem?_getD, OrderWorkflow.run,
        OrderWorkflow.runFromValidate, order_received, order_validated,
        payment_charged, DB.getOrder, DB.getPayment, DB.setOrderState,
        DB.commitEvent, emptyDB, applySigs_is_cancelled, applySigs_order_data,
        hb0, hb1, hb2, hb3, initWF] <;>
      decide
  | false =>
  cases f1 with
  | some m =>
    refine ⟨?_, ?_, ?_⟩ <;>
      simp [-List.any_eq_true, -List.getD_eq_getElem?_getD, OrderWorkflow.run,
        OrderWorkflow.runFromValidate, ShippingWorkflow.run, order_received,
        order_validated, payment_charged, DB.getOrder, DB.getPayment,
        DB.setOrderState, DB.commitEvent, emptyDB, applySigs_is_cancelled,
        applySigs_order_data, hb0, hb1, hb2, hb3, initWF] <;>
      decide
  | none =>
  cases f2 with
  | some m =>
    refine ⟨?_, ?_, ?_⟩ <;>
      simp [-List.any_eq_true, -List.getD_eq_getElem?_getD, OrderWorkflow.run,
        OrderWorkflow.runFromValidate, ShippingWorkflow.run, order_received,
        order_validated, payment_charged, package_prepared, DB.getOrder,
        DB.getPayment, DB.setOrderState, DB.commitEvent, emptyDB,
        applySigs_is_cancelled, applySigs_order_data, hb0, hb1, hb2, hb3,
        initWF] <;>
      decide
  | none =>
    refine ⟨?_, ?_, ?_⟩ <;>
      simp [-List.any_eq_true, -List.getD_eq_getElem?_getD, OrderWorkflow.run,
        OrderWorkflow.runFromValidate, ShippingWorkflow.run, order_received,
        order_validated, payment_charged, package_prepared, carrier_dispatched,
        DB.getOrder, DB.getPayment, DB.setOrderState, DB.commitEvent, emptyDB,
        applySigs_is_cancelled, applySigs_order_data, hb0, hb1, hb2, hb3,
        initWF] <;>
      decide

/-- C8 counterexample: a run whose only signal batch is a cancel followed
by an address update terminates with the cancelled result, yet the phase
the status query reports is `address_updated` — a value outside the
spec's phase set and different from the terminal outcome. -/
theorem C8_phase_escapes_spec_set :
    (OrderWorkflow.run emptyDB "o" "p" [[Sig.cancel, Sig.updAddr [("street", "X")]]]
        none none).result = .ok (.cancelled "order_received") ∧
    (OrderWorkflow.run emptyDB "o" "p" [[Sig.cancel, Sig.updAddr [("street", "X")]]]
        none none).wf.current_step = "address_updated" ∧
    (OrderWorkflow.run emptyDB "o" "p" [[Sig.cancel, Sig.updAddr [("street", "X")]]]
        none none).wf.current_step ∉
      ["initialized", "receiving_order", "validating_order", "manual_review",
       "charging_payment", "starting_shipping", "completed", "cancelled",
       "failed"] := by
  refine ⟨rfl, rfl, by decide⟩

/-- Peels the state constructor: a state literal's phase decides its
membership in the extended phase set. -/
theorem phaseOKb_mk (o p : String) (od : OrderData) (ad : Addr) (c : Bool)
    (st : String) (h : specPhasesExt.contains st = true) :
    phaseOKb ⟨o, p, od, ad, c, st⟩ = true := h

/-- Applying a signal batch keeps the phase inside the extended phase
set: an empty batch leaves it unchanged, a nonempty batch writes
`cancelled` or `address_updated`. -/
theorem applySigs_phaseOKb (s : WFState) (l : List Sig)
    (hs : phaseOKb s = true) : phaseOKb (applySigs s l) = true := by
  cases l with
  | nil => exact hs
  | cons a t =>
    unfold phaseOKb
    rw [applySigs_current_step_cons]
    rcases sigFold_cases t a with h | h <;> rw [h] <;> decide

/-- C8 amended: every workflow state a run passes through has a phase
inside the spec's set extended with the code's extra values `started`
and `address_updated`, and the final phase matches the terminal outcome
— `completed` for a completed result, `failed` for an error — except
that a cancelled result's phase may read `address_updated` when an
address-update signal followed the cancel in the same batch. -/
theorem C8_phase_query_amended (oid pid : String) (sched : List (List Sig))
    (f1 f2 : Option String) :
    ((OrderWorkflow.run emptyDB oid pid sched f1 f2).wfTrace.all phaseOKb) = true ∧
    phaseOKb (OrderWorkflow.run emptyDB oid pid sched f1 f2).wf = true ∧
    (OrderWorkflow.run emptyDB oid pid sched f1 f2).wf.current_step ∈
      expectedPhases (OrderWorkflow.run emptyDB oid pid sched f1 f2).result := by
  cases hb0 : (sched.getD 0 []).any Sig.isCancel with
  | true =>
    rcases hl : sched.getD 0 [] with _ | ⟨a, t⟩
    · rw [hl] at hb0; simp at hb0
    · rw [hl] at hb0
      refine ⟨?_, ?_, ?_⟩ <;>
        simp [-List.any_eq_true, -List.any_cons, -List.getD_eq_getElem?_getD,
          OrderWorkflow.run, OrderWorkflow.runFromValidate, order_received,
          DB.getOrder, DB.commitEvent, emptyDB, applySigs_is_cancelled,
          hb0, hl, initWF, expectedPhases]
      · repeat' apply And.intro
        all_goals first
          | decide
          | exact phaseOKb_mk _ _ _ _ _ _ (by decide)
          | exact applySigs_phaseOKb _ _ (phaseOKb_mk _ _ _ _ _ _ (by decide))
      · first
          | decide
          | exact applySigs_phaseOKb _ _ (phaseOKb_mk _ _ _ _ _ _ (by decide))
      · rw [applySigs_current_step_cons]
        rcases sigFold_cases t a with h | h <;> simp [h]
  | false =>
  cases hb1 : (sched.getD 1 []).any Sig.isCancel with
  | true =>
    rcases hl : sched.getD 1 [] with _ | ⟨a, t⟩
    · rw [hl] at hb1; simp at hb1
    · rw [hl] at hb1
      refine ⟨?_, ?_, ?_⟩ <;>
        simp [-List.any_eq_true, -List.any_cons, -List.getD_eq_getElem?_getD,
          OrderWorkflow.run, OrderWorkflow.runFromValidate, order_received,
          order_validated, DB.getOrder, DB.setOrderState, DB.commitEvent,
          emptyDB, applySigs_is_cancelled, applySigs_order_data, hb0, hb1,
          hl, initWF, expectedPhases]
      · repeat' apply And.intro
        all_goals first
          | decide
          | exact phaseOKb_mk _ _ _ _ _ _ (by decide)
          | exact applySigs_phaseOKb _ _ (phaseOKb_mk _ _ _ _ _ _ (by decide))
      · first
          | decide
          | exact applySigs_phaseOKb _ _ (phaseOKb_mk _ _ _ _ _ _ (by decide))
      · rw [applySigs_current_step_cons]
        rcases sigFold_cases t a with h | h <;> simp [h]
  | false =>
  cases hb2 : (sched.getD 2 []).any Sig.isCancel with
  | true =>
    rcases hl : sched.getD 2 [] with _ | ⟨a, t⟩
    · rw [hl] at hb2; simp at hb2
    · rw [hl] at hb2
      refine ⟨?_, ?_, ?_⟩ <;>
        simp [-List.any_eq_true, -List.any_cons, -List.getD_eq_getElem?_getD,
          OrderWorkflow.run, OrderWorkflow.runFromValidate, order_received,
          order_validated, DB.getOrder, DB.setOrderState, DB.commitEvent,
          emptyDB, applySigs_is_cancelled, applySigs_order_data, hb0, hb1,
          hb2, hl, initWF, expectedPhases]
      · repeat' apply And.intro
        all_goals first
          | decide
          | exact phaseOKb_mk _ _ _ _ _ _ (by decide)
          | exact applySigs_phaseOKb _ _ (phaseOKb_mk _ _ _ _ _ _ (by decide))
      · first
          | decide
          | exact applySigs_phaseOKb _ _ (phaseOKb_mk _ _ _ _ _ _ (by decide))
      · rw [applySigs_current_step_cons]
        rcases sigFold_cases t a with h | h <;> simp [h]
  | false =>
  cases hb3 : (sched.getD 3 []).any Sig.isCancel with
  | true =>
    rcases hl : sched.getD 3 [] with _ | ⟨a, t⟩
    · rw [hl] at hb3; simp at hb3
    · rw [hl] at hb3
      refine ⟨?_, ?_, ?_⟩ <;>
        simp [-List.any_eq_true, -List.any_cons, -List.getD_eq_getElem?_getD,
          OrderWorkflow.run, OrderWorkflow.runFromValidate, order_received,
          order_validated, payment_charged, DB.getOrder, DB.getPayment,
          DB.setOrderState, DB.commitEvent, emptyDB, applySigs_is_cancelled,
          applySigs_order_data, hb0, hb1, hb2, hb3, hl, initWF,
          expectedPhases]
      · repeat' apply And.intro
        all_goals first
          | decide
          | exact phaseOKb_mk _ _ _ _ _ _ (by decide)
          | exact applySigs_phaseOKb _ _ (phaseOKb_mk _ _ _ _ _ _ (by decide))
      · first
          | decide
          | exact applySigs_phaseOKb _ _ (phaseOKb_mk _ _ _ _ _ _ (by decide))
      · rw [applySigs_current_step_cons]
        rcases sigFold_cases t a with h | h <;> simp [h]
  | false =>
  cases f1 with
  | some m =>
    refine ⟨?_, ?_, ?_⟩ <;>
      simp [-List.any_eq_true, -List.getD_eq_getElem?_getD, OrderWorkflow.run,
        OrderWorkflow.runFromValidate, ShippingWorkflow.run, order_received,
        order_validated, payment_charged, DB.getOrder, DB.getPayment,
        DB.setOrderState, DB.commitEvent, emptyDB, applySigs_is_cancelled,
        applySigs_order_data, hb0, hb1, hb2, hb3, initWF, expectedPhases]
    · repeat' apply And.intro
      all_goals first
        | decide
        | exact phaseOKb_mk _ _ _ _ _ _ (by decide)
        | exact applySigs_phaseOKb _ _ (phaseOKb_mk _ _ _ _ _ _ (by decide))
    · first
        | decide
        | exact phaseOKb_mk _ _ _ _ _ _ (by decide)
  | none =>
  cases f2 with
  | some m =>
    refine ⟨?_, ?_, ?_⟩ <;>
      simp [-List.any_eq_true, -List.getD_eq_getElem?_getD, OrderWorkflow.run,
        OrderWorkflow.runFromValidate, ShippingWorkflow.run, order_received,
        order_validated, payment_charged, package_prepared, DB.getOrder,
        DB.getPayment, DB.setOrderState, DB.commitEvent, emptyDB,
        applySigs_is_cancelled, applySigs_order_data, hb0, hb1, hb2, hb3,
        initWF, expectedPhases]
    · repeat' apply And.intro
      all_goals first
        | decide
        | exact phaseOKb_mk _ _ _ _ _ _ (by decide)
        | exact applySigs_phaseOKb _ _ (phaseOKb_mk _ _ _ _ _ _ (by decide))
    · first
        | decide
        | exact phaseOKb_mk _ _ _ _ _ _ (by decide)
  | none =>
    refine ⟨?_, ?_, ?_⟩ <;>
      simp [-List.any_eq_true, -List.getD_eq_getElem?_getD, OrderWorkflow.run,
        OrderWorkflow.runFromValidate, ShippingWorkflow.run, order_received,
        order_validated, payment_charged, package_prepared, carrier_dispatched,
        DB.getOrder, DB.getPayment, DB.setOrderState, DB.commitEvent, emptyDB,
        applySigs_is_cancelled, applySigs_order_data, hb0, hb1, hb2, hb3,
        initWF, expectedPhases]
    · repeat' apply And.intro
      all_goals first
        | decide
        | exact phaseOKb_mk _ _ _ _ _ _ (by decide)
        | exact applySigs_phaseOKb _ _ (phaseOKb_mk _ _ _ _ _ _ (by decide))
    · first
        | decide
        | exact phaseOKb_mk _ _ _ _ _ _ (by decide)
